import Mathlib

/-!
Verification of the rustico emulator core: the NROM bus device
(`core/src/mmc/nrom.rs`), the APU noise channel (`src/apu/noise.rs`),
and the worker's event dispatch / pacing loop / audio callback
(`egui/src/worker.rs`), shallowly embedded in Lean.

Bytes and machine words are modelled as `Nat`; fallible reads return
`Option Nat` mirroring Rust's `Option<u8>`.
-/

namespace Rustico

/-! ## Memory Block

Modelled from the spec: `MemoryBlock` (crate `memoryblock`, not part of the
sources under verification) owns a byte array of fixed physical size.
`wrapping_read` / `wrapping_write` wrap the address modulo the physical
capacity before indexing; a zero-sized block reads as absent and ignores
writes. -/

structure MemoryBlock where
  bytes : List Nat
deriving Repr, DecidableEq

/-- Modelled from the spec: wrapping read; `read(addr) = contents[addr mod N]`
for capacity `N > 0`, absent for `N = 0`. -/
def MemoryBlock.wrapping_read (m : MemoryBlock) (address : Nat) : Option Nat :=
  if m.bytes.length = 0 then none
  else m.bytes[address % m.bytes.length]?

/-- Modelled from the spec: wrapping write; the address wraps modulo the
physical capacity, and a write to a zero-sized block is a no-op. -/
def MemoryBlock.wrapping_write (m : MemoryBlock) (address : Nat) (data : Nat) : MemoryBlock :=
  if m.bytes.length = 0 then m
  else { bytes := m.bytes.set (address % m.bytes.length) data }

/-! ## Mirroring -/

/-- The mirroring modes of `mmc/mapper.rs` (spec §3: Horizontal, Vertical,
SingleScreenA, SingleScreenB, FourScreen). -/
inductive Mirroring where
  | Horizontal
  | Vertical
  | SingleScreenA
  | SingleScreenB
  | FourScreen
deriving Repr, DecidableEq

namespace mirroring

/-- Modelled from the spec: `mmc/mirroring.rs` horizontal resolver (not in
the sources under verification).  Horizontal mirroring aliases the two
left/right logical 1 KiB nametables onto one physical 1 KiB region: the
low 10 bits index within a nametable and bit 11 of the logical address
selects the physical bank. -/
def horizontal_mirroring (address : Nat) : Nat :=
  (address &&& 0x3FF) ||| ((address &&& 0x800) >>> 1)

/-- Modelled from the spec: `mmc/mirroring.rs` vertical resolver.  Vertical
mirroring aliases top/bottom nametables by ignoring bit 11, keeping the low
11 bits as the physical offset into 2 KiB. -/
def vertical_mirroring (address : Nat) : Nat :=
  address &&& 0x7FF

/-- Modelled from the spec: `mmc/mirroring.rs` four-screen resolver.
FourScreen performs no aliasing: the low 12 bits index a full 4 KiB store. -/
def four_banks (address : Nat) : Nat :=
  address &&& 0xFFF

end mirroring

/-! ## NROM bus device (`core/src/mmc/nrom.rs`) -/

structure Nrom where
  prg_rom : MemoryBlock
  prg_ram : MemoryBlock
  chr : MemoryBlock
  mirroring : Mirroring
  vram : List Nat
deriving Repr, DecidableEq

/-- Modelled from the spec: the cartridge image input (crate `ines`, not part
of the sources under verification) supplies PRG-ROM bytes, an optional
PRG-RAM size, CHR-ROM or CHR-RAM bytes, and a declared mirroring mode. -/
structure INesCartridge where
  prg_rom : List Nat
  prg_ram_size : Nat
  chr_rom : List Nat
  chr_ram_size : Nat
  mirroring : Mirroring
deriving Repr, DecidableEq

/-- Modelled from the spec: the PRG-ROM block is the cartridge's PRG-ROM
bytes (infallible accessor). -/
def INesCartridge.prg_rom_block (ines : INesCartridge) : MemoryBlock :=
  { bytes := ines.prg_rom }

/-- Modelled from the spec: the PRG-RAM block is a zero-initialised block of
the declared size (the accessor is fallible; a shape the format cannot
express would yield a descriptive error, which this model never produces). -/
def INesCartridge.prg_ram_block (ines : INesCartridge) : Except String MemoryBlock :=
  Except.ok { bytes := List.replicate ines.prg_ram_size 0 }

/-- Modelled from the spec: the CHR block is the CHR-ROM bytes when the
cartridge supplies any, else a zero-initialised CHR-RAM block of the declared
size; a cartridge declaring neither is a descriptive load-time error. -/
def INesCartridge.chr_block (ines : INesCartridge) : Except String MemoryBlock :=
  if ines.chr_rom.length ≠ 0 then Except.ok { bytes := ines.chr_rom }
  else if ines.chr_ram_size ≠ 0 then Except.ok { bytes := List.replicate ines.chr_ram_size 0 }
  else Except.error "Cartridge has no CHR data"

/-- `Nrom::from_ines`: builds the device from the cartridge's blocks, keeps
the header's mirroring mode, and allocates 4 KiB (`0x1000` bytes) of VRAM
unconditionally. -/
def Nrom.from_ines (ines : INesCartridge) : Except String Nrom := do
  let prg_rom_block := ines.prg_rom_block
  let prg_ram_block ← ines.prg_ram_block
  let chr_block ← ines.chr_block
  return { prg_rom := prg_rom_block
           prg_ram := prg_ram_block
           chr := chr_block
           mirroring := ines.mirroring
           vram := List.replicate 0x1000 0 }

/-- `Nrom::debug_read_cpu`: CPU reads route `0x6000..=0x7FFF` to PRG-RAM and
`0x8000..=0xFFFF` to PRG-ROM, both offset-adjusted and wrapping; everything
else is absent.  Addresses are 16-bit (`u16`), so `addr ≤ 0xFFFF`. -/
def Nrom.debug_read_cpu (nrom : Nrom) (address : Nat) : Option Nat :=
  if 0x6000 ≤ address ∧ address ≤ 0x7FFF then
    nrom.prg_ram.wrapping_read (address - 0x6000)
  else if 0x8000 ≤ address ∧ address ≤ 0xFFFF then
    nrom.prg_rom.wrapping_read (address - 0x8000)
  else
    none

/-- `Nrom::write_cpu`: only `0x6000..=0x7FFF` (PRG-RAM) is written; all other
addresses leave the device untouched. -/
def Nrom.write_cpu (nrom : Nrom) (address : Nat) (data : Nat) : Nrom :=
  if 0x6000 ≤ address ∧ address ≤ 0x7FFF then
    { nrom with prg_ram := nrom.prg_ram.wrapping_write (address - 0x6000) data }
  else
    nrom

/-- `Nrom::debug_read_ppu`: `0x0000..=0x1FFF` routes to CHR; `0x2000..=0x3FFF`
routes through the mirroring resolver for the device's current mode into
VRAM (the unmatched single-screen modes fall to the `_ => None` arm);
addresses above `0x3FFF` are absent. -/
def Nrom.debug_read_ppu (nrom : Nrom) (address : Nat) : Option Nat :=
  if address ≤ 0x1FFF then
    nrom.chr.wrapping_read address
  else if address ≤ 0x3FFF then
    match nrom.mirroring with
    | Mirroring.Horizontal => nrom.vram[mirroring.horizontal_mirroring address]?
    | Mirroring.Vertical => nrom.vram[mirroring.vertical_mirroring address]?
    | Mirroring.FourScreen => nrom.vram[mirroring.four_banks address]?
    | _ => none
  else
    none

/-- `Nrom::write_ppu`: mirrors the read routing; `0x0000..=0x1FFF` writes CHR
(wrapping), `0x2000..=0x3FFF` writes VRAM through the resolver, all other
addresses (and the unmatched modes) change nothing. -/
def Nrom.write_ppu (nrom : Nrom) (address : Nat) (data : Nat) : Nrom :=
  if address ≤ 0x1FFF then
    { nrom with chr := nrom.chr.wrapping_write address data }
  else if address ≤ 0x3FFF then
    match nrom.mirroring with
    | Mirroring.Horizontal =>
        { nrom with vram := nrom.vram.set (mirroring.horizontal_mirroring address) data }
    | Mirroring.Vertical =>
        { nrom with vram := nrom.vram.set (mirroring.vertical_mirroring address) data }
    | Mirroring.FourScreen =>
        { nrom with vram := nrom.vram.set (mirroring.four_banks address) data }
    | _ => nrom
  else
    nrom

/-- The mirroring resolver the NROM device applies for a given mode, as
selected by the `match` in `debug_read_ppu` (only the three modes an iNES
header can declare are resolved; the statement of C3 takes those as the
modes the device can hold). -/
def nrom_resolver : Mirroring → Nat → Nat
  | Mirroring.Horizontal, address => mirroring.horizontal_mirroring address
  | Mirroring.Vertical, address => mirroring.vertical_mirroring address
  | Mirroring.FourScreen, address => mirroring.four_banks address
  | _, _ => 0

/-! ## Noise channel (`src/apu/noise.rs`)

The debug/visualisation fields of `NoiseChannelState` (`name`, `chip`,
`debug_disable`, `debug_buffer`, `output_buffer`) are carried for the GUI
only and are observed by none of the operations verified here; the model
keeps the synthesis state. -/

/-- Modelled from the spec: the volume envelope sub-state
(`apu/volume_envelope.rs`, not part of the sources under verification).
Only its current volume, an integer in `0..15`, is observed by the noise
channel's output. -/
structure VolumeEnvelopeState where
  current_volume : Nat
deriving Repr, DecidableEq

/-- Modelled from the spec: a fresh envelope (concrete initial volume is not
observed by any verified operation). -/
def VolumeEnvelopeState.new : VolumeEnvelopeState := { current_volume := 0 }

/-- Modelled from the spec: the length-counter sub-state
(`apu/length_counter.rs`, not part of the sources under verification); the
noise channel observes only its current `length`. -/
structure LengthCounterState where
  length : Nat
deriving Repr, DecidableEq

/-- Modelled from the spec: a fresh length counter (a freshly constructed
channel is silent). -/
def LengthCounterState.new : LengthCounterState := { length := 0 }

structure NoiseChannelState where
  length : Nat
  length_halt_flag : Bool
  envelope : VolumeEnvelopeState
  length_counter : LengthCounterState
  mode : Nat
  period_initial : Nat
  period_current : Nat
  /-- Actually a 15-bit register. -/
  shift_register : Nat
deriving Repr, DecidableEq

/-- `NoiseChannelState::new`: mode 0, both periods 0, shift register 1. -/
def NoiseChannelState.new : NoiseChannelState :=
  { length := 0
    length_halt_flag := false
    envelope := VolumeEnvelopeState.new
    length_counter := LengthCounterState.new
    mode := 0
    period_initial := 0
    period_current := 0
    shift_register := 1 }

/-- `NoiseChannelState::clock`: when the period counter is 0 it is reloaded
from `period_initial` and the shift register advances — feedback is bit 0
XOR (bit 6 in mode 1, else bit 1), the register shifts right one position,
and the feedback bit is inserted at bit 14; otherwise the period counter
just decrements. -/
def NoiseChannelState.clock (s : NoiseChannelState) : NoiseChannelState :=
  if s.period_current = 0 then
    let feedback0 := s.shift_register &&& 0b1
    let feedback :=
      if s.mode = 1 then feedback0 ^^^ ((s.shift_register >>> 6) &&& 0b1)
      else feedback0 ^^^ ((s.shift_register >>> 1) &&& 0b1)
    { s with
      period_current := s.period_initial
      shift_register := (s.shift_register >>> 1) ||| (feedback <<< 14) }
  else
    { s with period_current := s.period_current - 1 }

/-- `NoiseChannelState::output` (an `i16` in Rust, hence `Int`): 0 when the
length counter has reached 0, else bit 0 of the shift register scaled by the
envelope's current volume. -/
def NoiseChannelState.output (s : NoiseChannelState) : Int :=
  if s.length_counter.length > 0 then
    ((s.shift_register &&& 0b1 : Nat) : Int) * ((s.envelope.current_volume : Nat) : Int)
  else
    0

/-! ## Claim C5: the mode-0 LFSR sequence is maximal length

With both period fields 0, every `clock()` advances the shift register by
one LFSR step.  The 32767-step return of the register to its initial value
1, and the absence of any earlier return, are established by evaluating the
step function in 1024-step chunks (the checker functions force the
intermediate state at every step, which keeps kernel reduction shallow). -/

/-- The shift-register update of `NoiseChannelState::clock` in mode 0:
feedback = bit 0 XOR bit 1, shift right one, insert feedback at bit 14. -/
def lfsrStep (s : Nat) : Nat :=
  (s >>> 1) ||| (((s &&& 1) ^^^ ((s >>> 1) &&& 1)) <<< 14)

/-- Checks that `n` iterations of `lfsrStep` carry `s` to `t`, forcing the
intermediate state at each step. -/
def lfsrRunEq : Nat → Nat → Nat → Bool
  | 0, s, t => s == t
  | n + 1, s, t => (s == s) && lfsrRunEq n (lfsrStep s) t

/-- Checks that the iterates of `lfsrStep` from `s` at positions
`0 .. n-1` all avoid the value 1, forcing the state at each step. -/
def lfsrAvoidsOne : Nat → Nat → Bool
  | 0, _ => true
  | n + 1, s => (s != 1) && lfsrAvoidsOne n (lfsrStep s)

/-! ## Worker event dispatch (`egui/src/worker.rs`)

`Worker::dispatch_event` collects the follow-up events of the three
collaborator handlers (`runtime_state.handle_event`,
`game_window.handle_event`, and the worker's own `handle_event` — all
external to this core) and recursively dispatches each follow-up in order.
The collaborators are abstracted as one state-threading function `handle`
returning the concatenated follow-up list.  The Rust recursion has no
termination guarantee, so the embedding is fuel-indexed and returns `none`
when the cascade outlives the fuel; the returned list is the dispatch
trace — each event in the order its dispatch began (pre-order). -/

/-- Dispatches a list of sibling events left to right with `f`, threading
the state and concatenating the traces. -/
def dispatchList {σ ε : Type} (f : σ → ε → Option (σ × List ε)) :
    σ → List ε → Option (σ × List ε)
  | st, [] => some (st, [])
  | st, e :: es => do
    let (st1, t1) ← f st e
    let (st2, t2) ← dispatchList f st1 es
    return (st2, t1 ++ t2)

/-- `Worker::dispatch_event`: handle the event, then recursively dispatch
every follow-up event in order. -/
def dispatch_event {σ ε : Type} (handle : σ → ε → σ × List ε) :
    Nat → σ → ε → Option (σ × List ε)
  | 0, _, _ => none
  | fuel + 1, st, e =>
    match dispatchList (dispatch_event handle fuel) (handle st e).1 (handle st e).2 with
    | none => none
    | some (st2, trace) => some (st2, e :: trace)

/-- A concrete cascade for the C6 witness: event 0 produces `[1, 2]`,
event 1 produces `[3]`, all others produce nothing; the state counts
handled events. -/
def c6Handle : Nat → Nat → Nat × List Nat :=
  fun st e => (st + 1, if e = 0 then [1, 2] else if e = 1 then [3] else [])

/-! ## Worker pacing loop (`egui/src/worker.rs`, `Worker::step_emulator`) -/

/-- The fixed low-water mark: `step_emulator` keeps running scanlines while
the shared sample queue holds fewer than this many samples. -/
def lowWaterMark : Nat := 512

/-- `Worker::step_emulator`'s pacing loop, shallowly embedded.  Running one
scanline — dispatching `NesRunScanline` (plus `RequestFrame` on a frame
boundary) and draining/converting the APU's freshly produced samples — is
collaborator work, abstracted as `runScanline`.  The loop: while the
observed queue length is below the mark, run one scanline, append its
samples, and re-read the length.  Returns the final emulator state, final
queue and number of scanline steps; `none` when fuel runs out before the
mark is reached. -/
def step_emulator {ν α : Type} (runScanline : ν → ν × List α) :
    Nat → ν → List α → Option (ν × List α × Nat)
  | 0, nes, queue =>
    if queue.length < lowWaterMark then none else some (nes, queue, 0)
  | fuel + 1, nes, queue =>
    if queue.length < lowWaterMark then
      match step_emulator runScanline fuel (runScanline nes).1
          (queue ++ (runScanline nes).2) with
      | none => none
      | some (nes2, queue2, steps) => some (nes2, queue2, steps + 1)
    else
      some (nes, queue, 0)

/-! ## Real-time audio callback (`egui/src/worker.rs`, `setup_audio_stream`)

The cpal output callback, shallowly embedded as a pure function of the
shared queue contents and the output block size `n` (`data.len()`).  Sample
values are opaque to the callback (they are only moved), so the element
type is abstract; `equilibrium` stands for `cpal::Sample::EQUILIBRIUM`.
Returns the output block and the remaining queue. -/

/-- The callback as written: when the queue holds strictly more than `n`
samples, drain the first `n` and write them in order; otherwise write the
equilibrium value to the whole block and drain nothing. -/
def audio_callback {α : Type} (equilibrium : α) (queue : List α) (n : Nat) :
    List α × List α :=
  if n < queue.length then (queue.take n, queue.drop n)
  else (List.replicate n equilibrium, queue)

/-- The callback as claim C8 words it (for comparison with the code):
remove up to `n` samples from the front, write them in order, and
substitute the equilibrium value only for the shortfall. -/
def audio_callback_claimed {α : Type} (equilibrium : α) (queue : List α) (n : Nat) :
    List α × List α :=
  (queue.take n ++ List.replicate (n - queue.length) equilibrium, queue.drop n)

/-! ## Claim C1: CPU read routing -/

/-- C1: for every 16-bit CPU address, `debug_read_cpu` routes
`0x6000..0x7FFF` to PRG-RAM at offset `address - 0x6000` wrapped to the
block's capacity, routes `0x8000..0xFFFF` to PRG-ROM at offset
`address - 0x8000` wrapped, and returns absent for every other address;
in particular `read_cpu 0x8000` is the first byte of PRG-ROM. -/
theorem C1_read_cpu_routing (nrom : Nrom) (address : Nat) (haddr : address ≤ 0xFFFF) :
    (0x6000 ≤ address → address ≤ 0x7FFF →
      nrom.debug_read_cpu address =
        if nrom.prg_ram.bytes.length = 0 then none
        else nrom.prg_ram.bytes[(address - 0x6000) % nrom.prg_ram.bytes.length]?) ∧
    (0x8000 ≤ address →
      nrom.debug_read_cpu address =
        if nrom.prg_rom.bytes.length = 0 then none
        else nrom.prg_rom.bytes[(address - 0x8000) % nrom.prg_rom.bytes.length]?) ∧
    (address < 0x6000 → nrom.debug_read_cpu address = none) ∧
    (∀ hne : nrom.prg_rom.bytes ≠ [],
      nrom.debug_read_cpu 0x8000 = some (nrom.prg_rom.bytes.head hne)) := by
  refine ⟨?_, ?_, ?_, ?_⟩
  · intro h1 h2
    simp [Nrom.debug_read_cpu, MemoryBlock.wrapping_read, h1, h2]
  · intro h1
    have h2 : ¬ (0x6000 ≤ address ∧ address ≤ 0x7FFF) := by omega
    simp only [Nrom.debug_read_cpu, MemoryBlock.wrapping_read, if_neg h2, h1, haddr,
      and_self, if_pos]
  · intro h1
    have h2 : ¬ (0x6000 ≤ address ∧ address ≤ 0x7FFF) := by omega
    have h3 : ¬ (0x8000 ≤ address ∧ address ≤ 0xFFFF) := by omega
    simp [Nrom.debug_read_cpu, h2, h3]
  · intro hne
    have hlen : nrom.prg_rom.bytes.length ≠ 0 :=
      Nat.pos_iff_ne_zero.mp (List.length_pos.mpr hne)
    simp [Nrom.debug_read_cpu, MemoryBlock.wrapping_read, hlen,
      Nat.zero_mod, List.getElem?_eq_getElem (Nat.pos_of_ne_zero hlen),
      List.head_eq_getElem]

/-- Witness for C1 at a concrete device and address. -/
theorem C1_read_cpu_routing_witness :
    (Nrom.debug_read_cpu
      { prg_rom := { bytes := [10, 20] }, prg_ram := { bytes := [7] },
        chr := { bytes := [] }, mirroring := Mirroring.Vertical, vram := [] }
      0x8000 = some 10) := by
  have h := C1_read_cpu_routing
    { prg_rom := { bytes := [10, 20] }, prg_ram := { bytes := [7] },
      chr := { bytes := [] }, mirroring := Mirroring.Vertical, vram := [] }
    0x8000 (by decide)
  have h4 := h.2.2.2 (by decide)
  simpa using h4

/-! ## Claim C2: CPU write routing and frame effect -/

/-- C2: `write_cpu` writes only `0x6000..0x7FFF`: a write at `0x6000`
followed by a read at `0x6000` returns the written byte when PRG-RAM has
capacity and absent when it does not; a write to any address outside
`0x6000..0x7FFF` leaves the whole device state unchanged, so a write at
`0x8000` never changes the read at `0x8000`. -/
theorem C2_write_cpu_only_prg_ram (nrom : Nrom) (address v : Nat) :
    ((nrom.write_cpu 0x6000 v).debug_read_cpu 0x6000 =
      if nrom.prg_ram.bytes.length = 0 then none else some v) ∧
    (¬ (0x6000 ≤ address ∧ address ≤ 0x7FFF) → nrom.write_cpu address v = nrom) ∧
    ((nrom.write_cpu 0x8000 v).debug_read_cpu 0x8000 = nrom.debug_read_cpu 0x8000) := by
  have hout : ∀ a, ¬ (0x6000 ≤ a ∧ a ≤ 0x7FFF) → nrom.write_cpu a v = nrom := by
    intro a ha
    simp [Nrom.write_cpu, ha]
  refine ⟨?_, hout address, ?_⟩
  · by_cases hlen : nrom.prg_ram.bytes.length = 0
    · simp [Nrom.write_cpu, MemoryBlock.wrapping_write, Nrom.debug_read_cpu,
        MemoryBlock.wrapping_read, hlen]
    · have hpos : 0 < nrom.prg_ram.bytes.length := Nat.pos_of_ne_zero hlen
      simp [Nrom.write_cpu, MemoryBlock.wrapping_write, Nrom.debug_read_cpu,
        MemoryBlock.wrapping_read, hlen, Nat.zero_mod, hpos]
  · rw [hout 0x8000 (by omega)]

/-- Witness for C2 at a concrete device, address and byte. -/
theorem C2_write_cpu_only_prg_ram_witness :
    ((Nrom.write_cpu
        { prg_rom := { bytes := [10, 20] }, prg_ram := { bytes := [7, 8] },
          chr := { bytes := [] }, mirroring := Mirroring.Vertical, vram := [] }
        0x8000 99) =
      { prg_rom := { bytes := [10, 20] }, prg_ram := { bytes := [7, 8] },
        chr := { bytes := [] }, mirroring := Mirroring.Vertical, vram := [] }) := by
  exact (C2_write_cpu_only_prg_ram
    { prg_rom := { bytes := [10, 20] }, prg_ram := { bytes := [7, 8] },
      chr := { bytes := [] }, mirroring := Mirroring.Vertical, vram := [] }
    0x8000 99).2.1 (by decide)

/-! ## Claim C3: PPU read routing -/

/-- Each resolver the device can select lands inside the 4 KiB VRAM store. -/
theorem nrom_resolver_lt (m : Mirroring) (address : Nat) : nrom_resolver m address < 0x1000 := by
  have hshift : (address &&& 0x800) >>> 1 ≤ 0x400 := by
    rw [Nat.shiftRight_eq_div_pow]
    exact Nat.le_trans (Nat.div_le_div_right Nat.and_le_right) (by decide)
  cases m <;>
    simp only [nrom_resolver, mirroring.horizontal_mirroring, mirroring.vertical_mirroring,
      mirroring.four_banks]
  · have h : (address &&& 0x3FF) ||| ((address &&& 0x800) >>> 1) < 2 ^ 12 :=
      Nat.or_lt_two_pow (Nat.lt_of_le_of_lt Nat.and_le_right (by decide))
        (Nat.lt_of_le_of_lt hshift (by decide))
    exact h
  · exact Nat.lt_of_le_of_lt Nat.and_le_right (by decide)
  · decide
  · decide
  · have h : address &&& 0xFFF < 2 ^ 12 := Nat.and_lt_two_pow address (by decide)
    exact h

/-- C3: for every 16-bit PPU address, `debug_read_ppu` routes
`0x0000..0x1FFF` to the CHR block, routes `0x2000..0x3FFF` through the
resolver selected by the current mirroring mode into VRAM — returning a
present byte of the store for each of the modes the device can hold
(Horizontal, Vertical, FourScreen, with VRAM at its constructed 4 KiB
size) — and returns absent above `0x3FFF`. -/
theorem C3_read_ppu_routing (nrom : Nrom) (address : Nat) (haddr : address ≤ 0xFFFF)
    (hvram : nrom.vram.length = 0x1000)
    (hm : nrom.mirroring = Mirroring.Horizontal ∨ nrom.mirroring = Mirroring.Vertical ∨
      nrom.mirroring = Mirroring.FourScreen) :
    (address ≤ 0x1FFF → nrom.debug_read_ppu address = nrom.chr.wrapping_read address) ∧
    (0x2000 ≤ address → address ≤ 0x3FFF →
      nrom.debug_read_ppu address =
        some (nrom.vram.getD (nrom_resolver nrom.mirroring address) 0)) ∧
    (0x3FFF < address → nrom.debug_read_ppu address = none) := by
  refine ⟨?_, ?_, ?_⟩
  · intro h1
    simp [Nrom.debug_read_ppu, h1]
  · intro h1 h2
    have hn1 : ¬ address ≤ 0x1FFF := by omega
    have hlt : nrom_resolver nrom.mirroring address < nrom.vram.length := by
      rw [hvram]; exact nrom_resolver_lt nrom.mirroring address
    rcases hm with hm | hm | hm <;>
      simp only [hm, nrom_resolver] at hlt <;>
      simp [Nrom.debug_read_ppu, hn1, h2, hm, nrom_resolver,
        List.getElem?_eq_getElem hlt, List.getD_eq_getElem nrom.vram 0 hlt]
  · intro h1
    have hn1 : ¬ address ≤ 0x1FFF := by omega
    have hn2 : ¬ address ≤ 0x3FFF := by omega
    simp [Nrom.debug_read_ppu, hn1, hn2]

/-- Witness for C3 at a concrete device and nametable address. -/
theorem C3_read_ppu_routing_witness :
    (Nrom.debug_read_ppu
      { prg_rom := { bytes := [10] }, prg_ram := { bytes := [] },
        chr := { bytes := [1, 2] }, mirroring := Mirroring.Vertical,
        vram := List.replicate 0x1000 0 }
      0x2400 = some 0) := by
  have h := (C3_read_ppu_routing
    { prg_rom := { bytes := [10] }, prg_ram := { bytes := [] },
      chr := { bytes := [1, 2] }, mirroring := Mirroring.Vertical,
      vram := List.replicate 0x1000 0 }
    0x2400 (by decide) (by rw [List.length_replicate]) (Or.inr (Or.inl rfl))).2.1
    (by decide) (by decide)
  rw [h]
  show some ((List.replicate 0x1000 0).getD (mirroring.vertical_mirroring 0x2400) 0) = some 0
  rw [mirroring.vertical_mirroring, List.getD_eq_getElem?_getD, List.getElem?_replicate]
  decide

/-! ## Claim C9: FourScreen configuration at load time -/

/-- C9 counterexample: a cartridge declaring FourScreen mirroring (iNES
supplies no extra cartridge-side RAM for it — the format has no such field
and `from_ines` consults none) still constructs successfully, contradicting
the claim that construction returns an error. -/
theorem C9_fourscreen_loads_counterexample :
    (Nrom.from_ines
      { prg_rom := [1], prg_ram_size := 0, chr_rom := [2], chr_ram_size := 0,
        mirroring := Mirroring.FourScreen }).isOk = true := by
  rfl

/-- C9 amended: `from_ines` performs no mirroring check and unconditionally
allocates a full 4 KiB VRAM itself, so a FourScreen cartridge (with valid
PRG/CHR shapes) constructs without error and every nametable read is served
as a present byte from that store. -/
theorem C9_fourscreen_supported (ines : INesCartridge)
    (hm : ines.mirroring = Mirroring.FourScreen)
    (hchr : ines.chr_rom.length ≠ 0 ∨ ines.chr_ram_size ≠ 0) :
    ∃ nrom, Nrom.from_ines ines = Except.ok nrom ∧
      nrom.mirroring = Mirroring.FourScreen ∧
      nrom.vram.length = 0x1000 ∧
      (∀ address, 0x2000 ≤ address → address ≤ 0x3FFF →
        ∃ b, nrom.debug_read_ppu address = some b) := by
  have hread : ∀ nrom : Nrom, nrom.mirroring = Mirroring.FourScreen →
      nrom.vram.length = 0x1000 →
      ∀ address, 0x2000 ≤ address → address ≤ 0x3FFF →
        ∃ b, nrom.debug_read_ppu address = some b := by
    intro nrom hmir hlen address h1 h2
    have hn1 : ¬ address ≤ 0x1FFF := by omega
    have hlt : mirroring.four_banks address < nrom.vram.length := by
      rw [hlen]
      have h := nrom_resolver_lt Mirroring.FourScreen address
      simpa [nrom_resolver] using h
    refine ⟨nrom.vram.get ⟨mirroring.four_banks address, hlt⟩, ?_⟩
    simp [Nrom.debug_read_ppu, hn1, h2, hmir, List.getElem?_eq_getElem hlt]
  have hchrb : ∃ chrb, ines.chr_block = Except.ok chrb := by
    unfold INesCartridge.chr_block
    rcases hchr with h | h
    · simp [h]
    · by_cases hr : ines.chr_rom.length ≠ 0
      · simp [hr]
      · simp [hr, h]
  obtain ⟨chrb, hchrb⟩ := hchrb
  refine ⟨{ prg_rom := ines.prg_rom_block,
            prg_ram := { bytes := List.replicate ines.prg_ram_size 0 },
            chr := chrb, mirroring := ines.mirroring,
            vram := List.replicate 0x1000 0 }, ?_, hm, by rw [List.length_replicate], ?_⟩
  · simp only [Nrom.from_ines, INesCartridge.prg_ram_block, hchrb, Except.bind]
    rfl
  · exact hread _ hm (by rw [List.length_replicate])

/-- Witness for C9's amended theorem at a concrete FourScreen cartridge. -/
theorem C9_fourscreen_supported_witness :
    ∃ nrom, Nrom.from_ines
        { prg_rom := [1], prg_ram_size := 0, chr_rom := [2], chr_ram_size := 0,
          mirroring := Mirroring.FourScreen } = Except.ok nrom ∧
      nrom.mirroring = Mirroring.FourScreen ∧
      nrom.vram.length = 0x1000 ∧
      (∀ address, 0x2000 ≤ address → address ≤ 0x3FFF →
        ∃ b, nrom.debug_read_ppu address = some b) :=
  C9_fourscreen_supported
    { prg_rom := [1], prg_ram_size := 0, chr_rom := [2], chr_ram_size := 0,
      mirroring := Mirroring.FourScreen }
    rfl (Or.inl (by decide))

/-- A number with a set bit stays nonzero under bitwise or. -/
theorem or_ne_zero_left {a b : Nat} (h : a ≠ 0) : a ||| b ≠ 0 := by
  obtain ⟨i, hi⟩ := Nat.ne_zero_implies_bit_true h
  intro hc
  have hbit := congrArg (fun n => Nat.testBit n i) hc
  simp [Nat.testBit_or, hi] at hbit

/-! ## Claim C4: noise output gating and range -/

/-- C4: when the length counter is 0 the output is 0 regardless of the
shift-register and envelope state; when it is nonzero the output is bit 0 of
the shift register (0 or 1) times the envelope volume; and when the envelope
volume is in `0..15` the output is an integer in `[0, 15]`. -/
theorem C4_output_gating_and_range (s : NoiseChannelState) :
    (s.length_counter.length = 0 → s.output = 0) ∧
    (0 < s.length_counter.length →
      s.output = ((s.shift_register &&& 1 : Nat) : Int) * (s.envelope.current_volume : Int) ∧
      (s.shift_register &&& 1 = 0 ∨ s.shift_register &&& 1 = 1)) ∧
    (s.envelope.current_volume ≤ 15 → 0 ≤ s.output ∧ s.output ≤ 15) := by
  have hbit : s.shift_register &&& 1 = 0 ∨ s.shift_register &&& 1 = 1 := by
    rw [Nat.and_one_is_mod]
    exact Nat.mod_two_eq_zero_or_one s.shift_register
  refine ⟨?_, fun h => ⟨?_, hbit⟩, ?_⟩
  · intro h
    simp [NoiseChannelState.output, h]
  · simp [NoiseChannelState.output, h]
  · intro hvol
    by_cases h : 0 < s.length_counter.length
    · rcases hbit with hb | hb <;>
        simp [NoiseChannelState.output, h, hb]
      exact hvol
    · simp [NoiseChannelState.output, h]

/-- Witness for C4 at a concrete sounding channel state. -/
theorem C4_output_gating_and_range_witness :
    (0 : Int) ≤ NoiseChannelState.output
      { length := 1, length_halt_flag := false, envelope := { current_volume := 9 },
        length_counter := { length := 3 }, mode := 0, period_initial := 0,
        period_current := 0, shift_register := 0b101 } ∧
    NoiseChannelState.output
      { length := 1, length_halt_flag := false, envelope := { current_volume := 9 },
        length_counter := { length := 3 }, mode := 0, period_initial := 0,
        period_current := 0, shift_register := 0b101 } ≤ 15 :=
  (C4_output_gating_and_range
    { length := 1, length_halt_flag := false, envelope := { current_volume := 9 },
      length_counter := { length := 3 }, mode := 0, period_initial := 0,
      period_current := 0, shift_register := 0b101 }).2.2 (by decide)

/-! ## Claim C10: the shift register never locks up -/

/-- C10: for every state whose shift register is nonzero and below `2^15`,
the state after `clock()` again has a nonzero shift register below `2^15`
(whatever the mode or period state), and the constructor establishes the
invariant by initialising the register to 1. -/
theorem C10_shift_register_invariant (s : NoiseChannelState)
    (h0 : 0 < s.shift_register) (hlt : s.shift_register < 2 ^ 15) :
    (0 < s.clock.shift_register ∧ s.clock.shift_register < 2 ^ 15) ∧
    NoiseChannelState.new.shift_register = 1 := by
  refine ⟨?_, rfl⟩
  by_cases hp : s.period_current = 0
  · have hshift : s.clock.shift_register =
        (s.shift_register >>> 1) |||
          ((if s.mode = 1 then
              (s.shift_register &&& 1) ^^^ ((s.shift_register >>> 6) &&& 1)
            else
              (s.shift_register &&& 1) ^^^ ((s.shift_register >>> 1) &&& 1)) <<< 14) := by
      simp [NoiseChannelState.clock, hp]
    have hfb : ∀ k : Nat, (s.shift_register &&& 1) ^^^ ((s.shift_register >>> k) &&& 1) ≤ 1 := by
      intro k
      have h1 : s.shift_register &&& 1 < 2 ^ 1 := Nat.and_lt_two_pow _ (by decide)
      have h2 : (s.shift_register >>> k) &&& 1 < 2 ^ 1 := Nat.and_lt_two_pow _ (by decide)
      have := Nat.xor_lt_two_pow h1 h2
      omega
    constructor
    · rw [hshift]
      by_cases h2 : 2 ≤ s.shift_register
      · have hhalf : s.shift_register >>> 1 ≠ 0 := by
          rw [Nat.shiftRight_eq_div_pow]
          have : 1 ≤ s.shift_register / 2 ^ 1 := (Nat.le_div_iff_mul_le (by decide)).mpr (by omega)
          omega
        exact Nat.pos_of_ne_zero (or_ne_zero_left hhalf)
      · have h1 : s.shift_register = 1 := by omega
        rw [h1]
        by_cases hm : s.mode = 1 <;> simp [hm]
    · rw [hshift]
      have hl : s.shift_register >>> 1 < 2 ^ 15 := by
        rw [Nat.shiftRight_eq_div_pow]
        exact Nat.lt_of_le_of_lt (Nat.div_le_self _ _) hlt
      have hr : (if s.mode = 1 then
            (s.shift_register &&& 1) ^^^ ((s.shift_register >>> 6) &&& 1)
          else
            (s.shift_register &&& 1) ^^^ ((s.shift_register >>> 1) &&& 1)) <<< 14 < 2 ^ 15 := by
        rw [Nat.shiftLeft_eq]
        by_cases hm : s.mode = 1 <;> simp only [hm, if_pos, if_neg, ite_true, ite_false] <;>
          have := hfb (if s.mode = 1 then 6 else 1)
        · have h6 := hfb 6
          calc ((s.shift_register &&& 1) ^^^ ((s.shift_register >>> 6) &&& 1)) * 2 ^ 14
              ≤ 1 * 2 ^ 14 := Nat.mul_le_mul_right _ h6
            _ < 2 ^ 15 := by decide
        · have h1 := hfb 1
          calc ((s.shift_register &&& 1) ^^^ ((s.shift_register >>> 1) &&& 1)) * 2 ^ 14
              ≤ 1 * 2 ^ 14 := Nat.mul_le_mul_right _ h1
            _ < 2 ^ 15 := by decide
      exact Nat.or_lt_two_pow hl hr
  · have : s.clock.shift_register = s.shift_register := by
      simp [NoiseChannelState.clock, hp]
    rw [this]
    exact ⟨h0, hlt⟩

/-- Witness for C10 at a concrete state in mode 1 with a pending period. -/
theorem C10_shift_register_invariant_witness :
    0 < (NoiseChannelState.clock
      { length := 0, length_halt_flag := false, envelope := { current_volume := 0 },
        length_counter := { length := 0 }, mode := 1, period_initial := 4,
        period_current := 0, shift_register := 1 }).shift_register ∧
    (NoiseChannelState.clock
      { length := 0, length_halt_flag := false, envelope := { current_volume := 0 },
        length_counter := { length := 0 }, mode := 1, period_initial := 4,
        period_current := 0, shift_register := 1 }).shift_register < 2 ^ 15 :=
  (C10_shift_register_invariant
    { length := 0, length_halt_flag := false, envelope := { current_volume := 0 },
      length_counter := { length := 0 }, mode := 1, period_initial := 4,
      period_current := 0, shift_register := 1 } (by decide) (by decide)).1

theorem lfsrRunEq_spec : ∀ n s t, lfsrRunEq n s t = true → lfsrStep^[n] s = t := by
  intro n
  induction n with
  | zero =>
    intro s t h
    simpa [lfsrRunEq] using h
  | succ n ih =>
    intro s t h
    rw [lfsrRunEq, Bool.and_eq_true] at h
    rw [Function.iterate_succ_apply]
    exact ih (lfsrStep s) t h.2

theorem lfsrAvoidsOne_spec : ∀ n s, lfsrAvoidsOne n s = true → ∀ j, j < n → lfsrStep^[j] s ≠ 1 := by
  intro n
  induction n with
  | zero =>
    intro s _ j hj
    omega
  | succ n ih =>
    intro s h j hj
    rw [lfsrAvoidsOne, Bool.and_eq_true] at h
    match j with
    | 0 =>
      simpa using h.1
    | j + 1 =>
      rw [Function.iterate_succ_apply]
      exact ih (lfsrStep s) h.2 j (by omega)

theorem lfsrIter_chain {a b n s t u : Nat} (hn : a + b = n)
    (h1 : lfsrStep^[a] s = t) (h2 : lfsrStep^[b] t = u) : lfsrStep^[n] s = u := by
  subst hn
  rw [Nat.add_comm, Function.iterate_add_apply, h1, h2]

theorem lfsrAvoids_chain {a b n s t : Nat} (hn : a + b = n) (h1 : lfsrStep^[a] s = t)
    (hA : ∀ j, j < a → lfsrStep^[j] s ≠ 1) (hB : ∀ j, j < b → lfsrStep^[j] t ≠ 1) :
    ∀ j, j < n → lfsrStep^[j] s ≠ 1 := by
  subst hn
  intro j hj
  by_cases hja : j < a
  · exact hA j hja
  · have hstep : lfsrStep^[j] s = lfsrStep^[j - a] t := by
      rw [← h1, ← Function.iterate_add_apply]
      congr 1
      omega
    rw [hstep]
    exact hB (j - a) (by omega)

set_option maxRecDepth 40000 in
theorem lfsr_chunk_v0 : lfsrStep^[1024] 16384 = 13312 :=
  lfsrRunEq_spec 1024 16384 13312 (by rfl)

set_option maxRecDepth 40000 in
theorem lfsr_chunk_a0 : ∀ j, j < 1024 → lfsrStep^[j] 16384 ≠ 1 :=
  lfsrAvoidsOne_spec 1024 16384 (by rfl)

set_option maxRecDepth 40000 in
theorem lfsr_chunk_v1 : lfsrStep^[1024] 13312 = 5184 :=
  lfsrRunEq_spec 1024 13312 5184 (by rfl)

set_option maxRecDepth 40000 in
theorem lfsr_chunk_a1 : ∀ j, j < 1024 → lfsrStep^[j] 13312 ≠ 1 :=
  lfsrAvoidsOne_spec 1024 13312 (by rfl)

set_option maxRecDepth 40000 in
theorem lfsr_chunk_v2 : lfsrStep^[1024] 5184 = 3700 :=
  lfsrRunEq_spec 1024 5184 3700 (by rfl)

set_option maxRecDepth 40000 in
theorem lfsr_chunk_a2 : ∀ j, j < 1024 → lfsrStep^[j] 5184 ≠ 1 :=
  lfsrAvoidsOne_spec 1024 5184 (by rfl)

set_option maxRecDepth 40000 in
theorem lfsr_chunk_v3 : lfsrStep^[1024] 3700 = 13376 :=
  lfsrRunEq_spec 1024 3700 13376 (by rfl)

set_option maxRecDepth 40000 in
theorem lfsr_chunk_a3 : ∀ j, j < 1024 → lfsrStep^[j] 3700 ≠ 1 :=
  lfsrAvoidsOne_spec 1024 3700 (by rfl)

set_option maxRecDepth 40000 in
theorem lfsr_chunk_v4 : lfsrStep^[1024] 13376 = 5236 :=
  lfsrRunEq_spec 1024 13376 5236 (by rfl)

set_option maxRecDepth 40000 in
theorem lfsr_chunk_a4 : ∀ j, j < 1024 → lfsrStep^[j] 13376 ≠ 1 :=
  lfsrAvoidsOne_spec 1024 13376 (by rfl)

set_option maxRecDepth 40000 in
theorem lfsr_chunk_v5 : lfsrStep^[1024] 5236 = 15968 :=
  lfsrRunEq_spec 1024 5236 15968 (by rfl)

set_option maxRecDepth 40000 in
theorem lfsr_chunk_a5 : ∀ j, j < 1024 → lfsrStep^[j] 5236 ≠ 1 :=
  lfsrAvoidsOne_spec 1024 5236 (by rfl)

set_option maxRecDepth 40000 in
theorem lfsr_chunk_v6 : lfsrStep^[1024] 15968 = 4942 :=
  lfsrRunEq_spec 1024 15968 4942 (by rfl)

set_option maxRecDepth 40000 in
theorem lfsr_chunk_a6 : ∀ j, j < 1024 → lfsrStep^[j] 15968 ≠ 1 :=
  lfsrAvoidsOne_spec 1024 15968 (by rfl)

set_option maxRecDepth 40000 in
theorem lfsr_chunk_v7 : lfsrStep^[1024] 4942 = 9280 :=
  lfsrRunEq_spec 1024 4942 9280 (by rfl)

set_option maxRecDepth 40000 in
theorem lfsr_chunk_a7 : ∀ j, j < 1024 → lfsrStep^[j] 4942 ≠ 1 :=
  lfsrAvoidsOne_spec 1024 4942 (by rfl)

set_option maxRecDepth 40000 in
theorem lfsr_chunk_v8 : lfsrStep^[1024] 9280 = 6516 :=
  lfsrRunEq_spec 1024 9280 6516 (by rfl)

set_option maxRecDepth 40000 in
theorem lfsr_chunk_a8 : ∀ j, j < 1024 → lfsrStep^[j] 9280 ≠ 1 :=
  lfsrAvoidsOne_spec 1024 9280 (by rfl)

set_option maxRecDepth 40000 in
theorem lfsr_chunk_v9 : lfsrStep^[1024] 6516 = 15216 :=
  lfsrRunEq_spec 1024 6516 15216 (by rfl)

set_option maxRecDepth 40000 in
theorem lfsr_chunk_a9 : ∀ j, j < 1024 → lfsrStep^[j] 6516 ≠ 1 :=
  lfsrAvoidsOne_spec 1024 6516 (by rfl)

set_option maxRecDepth 40000 in
theorem lfsr_chunk_v10 : lfsrStep^[1024] 15216 = 20691 :=
  lfsrRunEq_spec 1024 15216 20691 (by rfl)

set_option maxRecDepth 40000 in
theorem lfsr_chunk_a10 : ∀ j, j < 1024 → lfsrStep^[j] 15216 ≠ 1 :=
  lfsrAvoidsOne_spec 1024 15216 (by rfl)

set_option maxRecDepth 40000 in
theorem lfsr_chunk_v11 : lfsrStep^[1024] 20691 = 10576 :=
  lfsrRunEq_spec 1024 20691 10576 (by rfl)

set_option maxRecDepth 40000 in
theorem lfsr_chunk_a11 : ∀ j, j < 1024 → lfsrStep^[j] 20691 ≠ 1 :=
  lfsrAvoidsOne_spec 1024 20691 (by rfl)

set_option maxRecDepth 40000 in
theorem lfsr_chunk_v12 : lfsrStep^[1024] 10576 = 23657 :=
  lfsrRunEq_spec 1024 10576 23657 (by rfl)

set_option maxRecDepth 40000 in
theorem lfsr_chunk_a12 : ∀ j, j < 1024 → lfsrStep^[j] 10576 ≠ 1 :=
  lfsrAvoidsOne_spec 1024 10576 (by rfl)

set_option maxRecDepth 40000 in
theorem lfsr_chunk_v13 : lfsrStep^[1024] 23657 = 13544 :=
  lfsrRunEq_spec 1024 23657 13544 (by rfl)

set_option maxRecDepth 40000 in
theorem lfsr_chunk_a13 : ∀ j, j < 1024 → lfsrStep^[j] 23657 ≠ 1 :=
  lfsrAvoidsOne_spec 1024 23657 (by rfl)

set_option maxRecDepth 40000 in
theorem lfsr_chunk_v14 : lfsrStep^[1024] 13544 = 29696 :=
  lfsrRunEq_spec 1024 13544 29696 (by rfl)

set_option maxRecDepth 40000 in
theorem lfsr_chunk_a14 : ∀ j, j < 1024 → lfsrStep^[j] 13544 ≠ 1 :=
  lfsrAvoidsOne_spec 1024 13544 (by rfl)

set_option maxRecDepth 40000 in
theorem lfsr_chunk_v15 : lfsrStep^[1024] 29696 = 8256 :=
  lfsrRunEq_spec 1024 29696 8256 (by rfl)

set_option maxRecDepth 40000 in
theorem lfsr_chunk_a15 : ∀ j, j < 1024 → lfsrStep^[j] 29696 ≠ 1 :=
  lfsrAvoidsOne_spec 1024 29696 (by rfl)

set_option maxRecDepth 40000 in
theorem lfsr_chunk_v16 : lfsrStep^[1024] 8256 = 6708 :=
  lfsrRunEq_spec 1024 8256 6708 (by rfl)

set_option maxRecDepth 40000 in
theorem lfsr_chunk_a16 : ∀ j, j < 1024 → lfsrStep^[j] 8256 ≠ 1 :=
  lfsrAvoidsOne_spec 1024 8256 (by rfl)

set_option maxRecDepth 40000 in
theorem lfsr_chunk_v17 : lfsrStep^[1024] 6708 = 14900 :=
  lfsrRunEq_spec 1024 6708 14900 (by rfl)

set_option maxRecDepth 40000 in
theorem lfsr_chunk_a17 : ∀ j, j < 1024 → lfsrStep^[j] 6708 ≠ 1 :=
  lfsrAvoidsOne_spec 1024 6708 (by rfl)

set_option maxRecDepth 40000 in
theorem lfsr_chunk_v18 : lfsrStep^[1024] 14900 = 8244 :=
  lfsrRunEq_spec 1024 14900 8244 (by rfl)

set_option maxRecDepth 40000 in
theorem lfsr_chunk_a18 : ∀ j, j < 1024 → lfsrStep^[j] 14900 ≠ 1 :=
  lfsrAvoidsOne_spec 1024 14900 (by rfl)

set_option maxRecDepth 40000 in
theorem lfsr_chunk_v19 : lfsrStep^[1024] 8244 = 10772 :=
  lfsrRunEq_spec 1024 8244 10772 (by rfl)

set_option maxRecDepth 40000 in
theorem lfsr_chunk_a19 : ∀ j, j < 1024 → lfsrStep^[j] 8244 ≠ 1 :=
  lfsrAvoidsOne_spec 1024 8244 (by rfl)

set_option maxRecDepth 40000 in
theorem lfsr_chunk_v20 : lfsrStep^[1024] 10772 = 11566 :=
  lfsrRunEq_spec 1024 10772 11566 (by rfl)

set_option maxRecDepth 40000 in
theorem lfsr_chunk_a20 : ∀ j, j < 1024 → lfsrStep^[j] 10772 ≠ 1 :=
  lfsrAvoidsOne_spec 1024 10772 (by rfl)

set_option maxRecDepth 40000 in
theorem lfsr_chunk_v21 : lfsrStep^[1024] 11566 = 14094 :=
  lfsrRunEq_spec 1024 11566 14094 (by rfl)

set_option maxRecDepth 40000 in
theorem lfsr_chunk_a21 : ∀ j, j < 1024 → lfsrStep^[j] 11566 ≠ 1 :=
  lfsrAvoidsOne_spec 1024 11566 (by rfl)

set_option maxRecDepth 40000 in
theorem lfsr_chunk_v22 : lfsrStep^[1024] 14094 = 15668 :=
  lfsrRunEq_spec 1024 14094 15668 (by rfl)

set_option maxRecDepth 40000 in
theorem lfsr_chunk_a22 : ∀ j, j < 1024 → lfsrStep^[j] 14094 ≠ 1 :=
  lfsrAvoidsOne_spec 1024 14094 (by rfl)

set_option maxRecDepth 40000 in
theorem lfsr_chunk_v23 : lfsrStep^[1024] 15668 = 8708 :=
  lfsrRunEq_spec 1024 15668 8708 (by rfl)

set_option maxRecDepth 40000 in
theorem lfsr_chunk_a23 : ∀ j, j < 1024 → lfsrStep^[j] 15668 ≠ 1 :=
  lfsrAvoidsOne_spec 1024 15668 (by rfl)

set_option maxRecDepth 40000 in
theorem lfsr_chunk_v24 : lfsrStep^[1024] 8708 = 27555 :=
  lfsrRunEq_spec 1024 8708 27555 (by rfl)

set_option maxRecDepth 40000 in
theorem lfsr_chunk_a24 : ∀ j, j < 1024 → lfsrStep^[j] 8708 ≠ 1 :=
  lfsrAvoidsOne_spec 1024 8708 (by rfl)

set_option maxRecDepth 40000 in
theorem lfsr_chunk_v25 : lfsrStep^[1024] 27555 = 31107 :=
  lfsrRunEq_spec 1024 27555 31107 (by rfl)

set_option maxRecDepth 40000 in
theorem lfsr_chunk_a25 : ∀ j, j < 1024 → lfsrStep^[j] 27555 ≠ 1 :=
  lfsrAvoidsOne_spec 1024 27555 (by rfl)

set_option maxRecDepth 40000 in
theorem lfsr_chunk_v26 : lfsrStep^[1024] 31107 = 30009 :=
  lfsrRunEq_spec 1024 31107 30009 (by rfl)

set_option maxRecDepth 40000 in
theorem lfsr_chunk_a26 : ∀ j, j < 1024 → lfsrStep^[j] 31107 ≠ 1 :=
  lfsrAvoidsOne_spec 1024 31107 (by rfl)

set_option maxRecDepth 40000 in
theorem lfsr_chunk_v27 : lfsrStep^[1024] 30009 = 26753 :=
  lfsrRunEq_spec 1024 30009 26753 (by rfl)

set_option maxRecDepth 40000 in
theorem lfsr_chunk_a27 : ∀ j, j < 1024 → lfsrStep^[j] 30009 ≠ 1 :=
  lfsrAvoidsOne_spec 1024 30009 (by rfl)

set_option maxRecDepth 40000 in
theorem lfsr_chunk_v28 : lfsrStep^[1024] 26753 = 16616 :=
  lfsrRunEq_spec 1024 26753 16616 (by rfl)

set_option maxRecDepth 40000 in
theorem lfsr_chunk_a28 : ∀ j, j < 1024 → lfsrStep^[j] 26753 ≠ 1 :=
  lfsrAvoidsOne_spec 1024 26753 (by rfl)

set_option maxRecDepth 40000 in
theorem lfsr_chunk_v29 : lfsrStep^[1024] 16616 = 21568 :=
  lfsrRunEq_spec 1024 16616 21568 (by rfl)

set_option maxRecDepth 40000 in
theorem lfsr_chunk_a29 : ∀ j, j < 1024 → lfsrStep^[j] 16616 ≠ 1 :=
  lfsrAvoidsOne_spec 1024 16616 (by rfl)

set_option maxRecDepth 40000 in
theorem lfsr_chunk_v30 : lfsrStep^[1024] 21568 = 14964 :=
  lfsrRunEq_spec 1024 21568 14964 (by rfl)

set_option maxRecDepth 40000 in
theorem lfsr_chunk_a30 : ∀ j, j < 1024 → lfsrStep^[j] 21568 ≠ 1 :=
  lfsrAvoidsOne_spec 1024 21568 (by rfl)

set_option maxRecDepth 40000 in
theorem lfsr_chunk_v31 : lfsrStep^[1022] 14964 = 1 :=
  lfsrRunEq_spec 1022 14964 1 (by rfl)

set_option maxRecDepth 40000 in
theorem lfsr_chunk_a31 : ∀ j, j < 1022 → lfsrStep^[j] 14964 ≠ 1 :=
  lfsrAvoidsOne_spec 1022 14964 (by rfl)

/-- The LFSR orbit of 1 in mode 0: one step reaches 16384; 32766 further
steps return to 1 and never pass through 1 before that. -/
theorem lfsr_first_return :
    lfsrStep^[32766] 16384 = 1 ∧ ∀ j, j < 32766 → lfsrStep^[j] 16384 ≠ 1 := by
  have hV0 : lfsrStep^[1024] 16384 = 13312 := lfsr_chunk_v0
  have hA0 : ∀ j, j < 1024 → lfsrStep^[j] 16384 ≠ 1 := lfsr_chunk_a0
  have hV1 : lfsrStep^[2048] 16384 = 5184 := lfsrIter_chain (by norm_num) hV0 lfsr_chunk_v1
  have hA1 : ∀ j, j < 2048 → lfsrStep^[j] 16384 ≠ 1 := lfsrAvoids_chain (by norm_num) hV0 hA0 lfsr_chunk_a1
  have hV2 : lfsrStep^[3072] 16384 = 3700 := lfsrIter_chain (by norm_num) hV1 lfsr_chunk_v2
  have hA2 : ∀ j, j < 3072 → lfsrStep^[j] 16384 ≠ 1 := lfsrAvoids_chain (by norm_num) hV1 hA1 lfsr_chunk_a2
  have hV3 : lfsrStep^[4096] 16384 = 13376 := lfsrIter_chain (by norm_num) hV2 lfsr_chunk_v3
  have hA3 : ∀ j, j < 4096 → lfsrStep^[j] 16384 ≠ 1 := lfsrAvoids_chain (by norm_num) hV2 hA2 lfsr_chunk_a3
  have hV4 : lfsrStep^[5120] 16384 = 5236 := lfsrIter_chain (by norm_num) hV3 lfsr_chunk_v4
  have hA4 : ∀ j, j < 5120 → lfsrStep^[j] 16384 ≠ 1 := lfsrAvoids_chain (by norm_num) hV3 hA3 lfsr_chunk_a4
  have hV5 : lfsrStep^[6144] 16384 = 15968 := lfsrIter_chain (by norm_num) hV4 lfsr_chunk_v5
  have hA5 : ∀ j, j < 6144 → lfsrStep^[j] 16384 ≠ 1 := lfsrAvoids_chain (by norm_num) hV4 hA4 lfsr_chunk_a5
  have hV6 : lfsrStep^[7168] 16384 = 4942 := lfsrIter_chain (by norm_num) hV5 lfsr_chunk_v6
  have hA6 : ∀ j, j < 7168 → lfsrStep^[j] 16384 ≠ 1 := lfsrAvoids_chain (by norm_num) hV5 hA5 lfsr_chunk_a6
  have hV7 : lfsrStep^[8192] 16384 = 9280 := lfsrIter_chain (by norm_num) hV6 lfsr_chunk_v7
  have hA7 : ∀ j, j < 8192 → lfsrStep^[j] 16384 ≠ 1 := lfsrAvoids_chain (by norm_num) hV6 hA6 lfsr_chunk_a7
  have hV8 : lfsrStep^[9216] 16384 = 6516 := lfsrIter_chain (by norm_num) hV7 lfsr_chunk_v8
  have hA8 : ∀ j, j < 9216 → lfsrStep^[j] 16384 ≠ 1 := lfsrAvoids_chain (by norm_num) hV7 hA7 lfsr_chunk_a8
  have hV9 : lfsrStep^[10240] 16384 = 15216 := lfsrIter_chain (by norm_num) hV8 lfsr_chunk_v9
  have hA9 : ∀ j, j < 10240 → lfsrStep^[j] 16384 ≠ 1 := lfsrAvoids_chain (by norm_num) hV8 hA8 lfsr_chunk_a9
  have hV10 : lfsrStep^[11264] 16384 = 20691 := lfsrIter_chain (by norm_num) hV9 lfsr_chunk_v10
  have hA10 : ∀ j, j < 11264 → lfsrStep^[j] 16384 ≠ 1 := lfsrAvoids_chain (by norm_num) hV9 hA9 lfsr_chunk_a10
  have hV11 : lfsrStep^[12288] 16384 = 10576 := lfsrIter_chain (by norm_num) hV10 lfsr_chunk_v11
  have hA11 : ∀ j, j < 12288 → lfsrStep^[j] 16384 ≠ 1 := lfsrAvoids_chain (by norm_num) hV10 hA10 lfsr_chunk_a11
  have hV12 : lfsrStep^[13312] 16384 = 23657 := lfsrIter_chain (by norm_num) hV11 lfsr_chunk_v12
  have hA12 : ∀ j, j < 13312 → lfsrStep^[j] 16384 ≠ 1 := lfsrAvoids_chain (by norm_num) hV11 hA11 lfsr_chunk_a12
  have hV13 : lfsrStep^[14336] 16384 = 13544 := lfsrIter_chain (by norm_num) hV12 lfsr_chunk_v13
  have hA13 : ∀ j, j < 14336 → lfsrStep^[j] 16384 ≠ 1 := lfsrAvoids_chain (by norm_num) hV12 hA12 lfsr_chunk_a13
  have hV14 : lfsrStep^[15360] 16384 = 29696 := lfsrIter_chain (by norm_num) hV13 lfsr_chunk_v14
  have hA14 : ∀ j, j < 15360 → lfsrStep^[j] 16384 ≠ 1 := lfsrAvoids_chain (by norm_num) hV13 hA13 lfsr_chunk_a14
  have hV15 : lfsrStep^[16384] 16384 = 8256 := lfsrIter_chain (by norm_num) hV14 lfsr_chunk_v15
  have hA15 : ∀ j, j < 16384 → lfsrStep^[j] 16384 ≠ 1 := lfsrAvoids_chain (by norm_num) hV14 hA14 lfsr_chunk_a15
  have hV16 : lfsrStep^[17408] 16384 = 6708 := lfsrIter_chain (by norm_num) hV15 lfsr_chunk_v16
  have hA16 : ∀ j, j < 17408 → lfsrStep^[j] 16384 ≠ 1 := lfsrAvoids_chain (by norm_num) hV15 hA15 lfsr_chunk_a16
  have hV17 : lfsrStep^[18432] 16384 = 14900 := lfsrIter_chain (by norm_num) hV16 lfsr_chunk_v17
  have hA17 : ∀ j, j < 18432 → lfsrStep^[j] 16384 ≠ 1 := lfsrAvoids_chain (by norm_num) hV16 hA16 lfsr_chunk_a17
  have hV18 : lfsrStep^[19456] 16384 = 8244 := lfsrIter_chain (by norm_num) hV17 lfsr_chunk_v18
  have hA18 : ∀ j, j < 19456 → lfsrStep^[j] 16384 ≠ 1 := lfsrAvoids_chain (by norm_num) hV17 hA17 lfsr_chunk_a18
  have hV19 : lfsrStep^[20480] 16384 = 10772 := lfsrIter_chain (by norm_num) hV18 lfsr_chunk_v19
  have hA19 : ∀ j, j < 20480 → lfsrStep^[j] 16384 ≠ 1 := lfsrAvoids_chain (by norm_num) hV18 hA18 lfsr_chunk_a19
  have hV20 : lfsrStep^[21504] 16384 = 11566 := lfsrIter_chain (by norm_num) hV19 lfsr_chunk_v20
  have hA20 : ∀ j, j < 21504 → lfsrStep^[j] 16384 ≠ 1 := lfsrAvoids_chain (by norm_num) hV19 hA19 lfsr_chunk_a20
  have hV21 : lfsrStep^[22528] 16384 = 14094 := lfsrIter_chain (by norm_num) hV20 lfsr_chunk_v21
  have hA21 : ∀ j, j < 22528 → lfsrStep^[j] 16384 ≠ 1 := lfsrAvoids_chain (by norm_num) hV20 hA20 lfsr_chunk_a21
  have hV22 : lfsrStep^[23552] 16384 = 15668 := lfsrIter_chain (by norm_num) hV21 lfsr_chunk_v22
  have hA22 : ∀ j, j < 23552 → lfsrStep^[j] 16384 ≠ 1 := lfsrAvoids_chain (by norm_num) hV21 hA21 lfsr_chunk_a22
  have hV23 : lfsrStep^[24576] 16384 = 8708 := lfsrIter_chain (by norm_num) hV22 lfsr_chunk_v23
  have hA23 : ∀ j, j < 24576 → lfsrStep^[j] 16384 ≠ 1 := lfsrAvoids_chain (by norm_num) hV22 hA22 lfsr_chunk_a23
  have hV24 : lfsrStep^[25600] 16384 = 27555 := lfsrIter_chain (by norm_num) hV23 lfsr_chunk_v24
  have hA24 : ∀ j, j < 25600 → lfsrStep^[j] 16384 ≠ 1 := lfsrAvoids_chain (by norm_num) hV23 hA23 lfsr_chunk_a24
  have hV25 : lfsrStep^[26624] 16384 = 31107 := lfsrIter_chain (by norm_num) hV24 lfsr_chunk_v25
  have hA25 : ∀ j, j < 26624 → lfsrStep^[j] 16384 ≠ 1 := lfsrAvoids_chain (by norm_num) hV24 hA24 lfsr_chunk_a25
  have hV26 : lfsrStep^[27648] 16384 = 30009 := lfsrIter_chain (by norm_num) hV25 lfsr_chunk_v26
  have hA26 : ∀ j, j < 27648 → lfsrStep^[j] 16384 ≠ 1 := lfsrAvoids_chain (by norm_num) hV25 hA25 lfsr_chunk_a26
  have hV27 : lfsrStep^[28672] 16384 = 26753 := lfsrIter_chain (by norm_num) hV26 lfsr_chunk_v27
  have hA27 : ∀ j, j < 28672 → lfsrStep^[j] 16384 ≠ 1 := lfsrAvoids_chain (by norm_num) hV26 hA26 lfsr_chunk_a27
  have hV28 : lfsrStep^[29696] 16384 = 16616 := lfsrIter_chain (by norm_num) hV27 lfsr_chunk_v28
  have hA28 : ∀ j, j < 29696 → lfsrStep^[j] 16384 ≠ 1 := lfsrAvoids_chain (by norm_num) hV27 hA27 lfsr_chunk_a28
  have hV29 : lfsrStep^[30720] 16384 = 21568 := lfsrIter_chain (by norm_num) hV28 lfsr_chunk_v29
  have hA29 : ∀ j, j < 30720 → lfsrStep^[j] 16384 ≠ 1 := lfsrAvoids_chain (by norm_num) hV28 hA28 lfsr_chunk_a29
  have hV30 : lfsrStep^[31744] 16384 = 14964 := lfsrIter_chain (by norm_num) hV29 lfsr_chunk_v30
  have hA30 : ∀ j, j < 31744 → lfsrStep^[j] 16384 ≠ 1 := lfsrAvoids_chain (by norm_num) hV29 hA29 lfsr_chunk_a30
  have hV31 : lfsrStep^[32766] 16384 = 1 := lfsrIter_chain (by norm_num) hV30 lfsr_chunk_v31
  have hA31 : ∀ j, j < 32766 → lfsrStep^[j] 16384 ≠ 1 := lfsrAvoids_chain (by norm_num) hV30 hA30 lfsr_chunk_a31
  exact ⟨hV31, hA31⟩

/-- With mode 0 and both period fields 0, `clock` performs exactly one LFSR
step on the shift register and preserves the mode and period fields. -/
theorem clock_mode0_step (s : NoiseChannelState) (hmode : s.mode = 0)
    (hpi : s.period_initial = 0) (hpc : s.period_current = 0) :
    s.clock.mode = 0 ∧ s.clock.period_initial = 0 ∧ s.clock.period_current = 0 ∧
    s.clock.shift_register = lfsrStep s.shift_register := by
  simp [NoiseChannelState.clock, hpc, hpi, hmode, lfsrStep]

/-- Iterating `clock` from a mode-0, period-0 state iterates the LFSR step
on the shift register. -/
theorem clock_iterate_mode0 (n : Nat) : ∀ s : NoiseChannelState, s.mode = 0 →
    s.period_initial = 0 → s.period_current = 0 →
    (NoiseChannelState.clock^[n] s).shift_register = lfsrStep^[n] s.shift_register := by
  induction n with
  | zero =>
    intro s _ _ _
    simp
  | succ n ih =>
    intro s hm hpi hpc
    obtain ⟨h1, h2, h3, h4⟩ := clock_mode0_step s hm hpi hpc
    rw [Function.iterate_succ_apply, Function.iterate_succ_apply, ih s.clock h1 h2 h3, h4]

/-- C5: starting from a noise-channel state with shift register 1, mode 0 and
both period fields 0, exactly 32767 applications of `clock()` return the
shift register to its original value, and no strictly smaller positive number
of clocks does so (the sequence is maximal-length). -/
theorem C5_lfsr_maximal_length (s : NoiseChannelState) (hsr : s.shift_register = 1)
    (hmode : s.mode = 0) (hpi : s.period_initial = 0) (hpc : s.period_current = 0) :
    (NoiseChannelState.clock^[32767] s).shift_register = s.shift_register ∧
    ∀ k, 0 < k → k < 32767 →
      (NoiseChannelState.clock^[k] s).shift_register ≠ s.shift_register := by
  have hstep1 : lfsrStep 1 = 16384 := by rfl
  constructor
  · rw [clock_iterate_mode0 32767 s hmode hpi hpc, hsr]
    rw [show (32767 : Nat) = 32766 + 1 by norm_num, Function.iterate_add_apply,
      Function.iterate_one, hstep1]
    exact lfsr_first_return.1
  · intro k hk0 hk
    rw [clock_iterate_mode0 k s hmode hpi hpc, hsr]
    rw [show k = (k - 1) + 1 by omega, Function.iterate_add_apply,
      Function.iterate_one, hstep1]
    exact lfsr_first_return.2 (k - 1) (by omega)

/-- Witness for C5 at the freshly constructed channel. -/
theorem C5_lfsr_maximal_length_witness :
    (NoiseChannelState.clock^[32767] NoiseChannelState.new).shift_register =
      NoiseChannelState.new.shift_register ∧
    (NoiseChannelState.clock^[5] NoiseChannelState.new).shift_register ≠
      NoiseChannelState.new.shift_register :=
  ⟨(C5_lfsr_maximal_length NoiseChannelState.new rfl rfl rfl rfl).1,
   (C5_lfsr_maximal_length NoiseChannelState.new rfl rfl rfl rfl).2 5 (by decide) (by decide)⟩

/-- Dispatching exactly two sibling events runs the first one's cascade to
completion (threading the state) before the second begins. -/
theorem dispatchList_pair {σ ε : Type} (f : σ → ε → Option (σ × List ε)) (st : σ) (X Y : ε) :
    dispatchList f st [X, Y] =
      match f st X with
      | none => none
      | some (s1, t1) =>
        match f s1 Y with
        | none => none
        | some (s2, t2) => some (s2, t1 ++ t2) := by
  cases hX : f st X with
  | none => simp [dispatchList, hX]
  | some p1 =>
    obtain ⟨s1, t1⟩ := p1
    cases hY : f s1 Y with
    | none => simp [dispatchList, hX, hY]
    | some p2 =>
      obtain ⟨s2, t2⟩ := p2
      simp [dispatchList, hX, hY]

/-! ## Claim C6: dispatch is depth-first -/

/-- C6: when handling `e` produces the follow-ups `[X, Y]`, the dispatch of
`e` consists of `e` itself, then the complete cascade of `X` (trace and
state effects included), then — only after `X`'s cascade has fully finished
— the complete cascade of `Y`; no queue survives the call. -/
theorem C6_dispatch_depth_first {σ ε : Type} (handle : σ → ε → σ × List ε)
    (fuel : Nat) (st st' : σ) (e X Y : ε) (trace : List ε)
    (hresp : (handle st e).2 = [X, Y])
    (hrun : dispatch_event handle (fuel + 1) st e = some (st', trace)) :
    ∃ stX traceX traceY,
      dispatch_event handle fuel (handle st e).1 X = some (stX, traceX) ∧
      dispatch_event handle fuel stX Y = some (st', traceY) ∧
      trace = e :: (traceX ++ traceY) := by
  rw [dispatch_event, hresp, dispatchList_pair] at hrun
  cases hX : dispatch_event handle fuel (handle st e).1 X with
  | none =>
    simp only [hX] at hrun
    exact absurd hrun (by simp)
  | some pX =>
    obtain ⟨stX, traceX⟩ := pX
    simp only [hX] at hrun
    cases hY : dispatch_event handle fuel stX Y with
    | none =>
      simp only [hY] at hrun
      exact absurd hrun (by simp)
    | some pY =>
      obtain ⟨stY, traceY⟩ := pY
      simp only [hY, Option.some.injEq, Prod.mk.injEq] at hrun
      refine ⟨stX, traceX, traceY, rfl, ?_, hrun.2.symm⟩
      rw [hY, hrun.1]

/-- Witness for C6: in the concrete cascade, the trace of dispatching
event 0 is `[0, 1, 3, 2]` — the cascade of follow-up 1 (including its own
follow-up 3) completes before sibling 2 starts. -/
theorem C6_dispatch_depth_first_witness :
    ∃ stX traceX traceY,
      dispatch_event c6Handle 2 (c6Handle 0 0).1 1 = some (stX, traceX) ∧
      dispatch_event c6Handle 2 stX 2 = some (4, traceY) ∧
      ([0, 1, 3, 2] : List Nat) = 0 :: (traceX ++ traceY) :=
  C6_dispatch_depth_first c6Handle 2 0 4 0 1 2 [0, 1, 3, 2] (by decide) (by decide)

/-! ## Claim C7: pacing backpressure -/

/-- C7: a queue already at (or above) the low-water mark yields zero
scanline steps and no state or queue change; with the queue below the mark
one scanline runs and its samples are appended to the queue before the mark
is re-checked (the loop recurses on the extended queue); from an empty
queue at least one scanline step is performed. -/
theorem C7_pacing_backpressure {ν α : Type} (runScanline : ν → ν × List α)
    (fuel : Nat) (nes : ν) (queue : List α) :
    (lowWaterMark ≤ queue.length →
      step_emulator runScanline fuel nes queue = some (nes, queue, 0)) ∧
    (queue.length < lowWaterMark →
      step_emulator runScanline (fuel + 1) nes queue =
        (step_emulator runScanline fuel (runScanline nes).1
            (queue ++ (runScanline nes).2)).map
          (fun r => (r.1, r.2.1, r.2.2 + 1))) ∧
    (∀ nes2 queue2 steps,
      step_emulator runScanline (fuel + 1) nes [] = some (nes2, queue2, steps) →
      1 ≤ steps) := by
  refine ⟨?_, ?_, ?_⟩
  · intro h
    have hn : ¬ queue.length < lowWaterMark := by omega
    cases fuel with
    | zero => simp [step_emulator, hn]
    | succ fuel => simp [step_emulator, hn]
  · intro h
    rw [step_emulator, if_pos h]
    cases hrec : step_emulator runScanline fuel (runScanline nes).1
        (queue ++ (runScanline nes).2) with
    | none => rfl
    | some r =>
      obtain ⟨n2, q2, s2⟩ := r
      rfl
  · intro nes2 queue2 steps hrun
    have h : ([] : List α).length < lowWaterMark := by simp [lowWaterMark]
    rw [step_emulator, if_pos h] at hrun
    cases hrec : step_emulator runScanline fuel (runScanline nes).1
        ([] ++ (runScanline nes).2) with
    | none =>
      rw [hrec] at hrun
      exact absurd hrun (by simp)
    | some r =>
      obtain ⟨n2, q2, s2⟩ := r
      rw [hrec] at hrun
      simp only [Option.some.injEq, Prod.mk.injEq] at hrun
      omega

/-- Witness for C7: with the queue pre-filled to the mark, one pacing call
performs zero steps and leaves everything unchanged. -/
theorem C7_pacing_backpressure_witness :
    step_emulator (fun n : Nat => (n + 1, [(0 : Nat)])) 3 7 (List.replicate 512 0) =
      some (7, List.replicate 512 0, 0) :=
  (C7_pacing_backpressure (fun n : Nat => (n + 1, [(0 : Nat)])) 3 7
    (List.replicate 512 0)).1 (by rw [List.length_replicate]; rfl)

/-! ## Claim C8: audio underrun handling -/

/-- C8 counterexample: with one sample queued and a one-sample block, the
code writes a whole block of silence and drains nothing (the drain branch
requires the queue to hold strictly more than `n` samples), whereas the
claim says the one available sample is removed and written. -/
theorem C8_audio_callback_counterexample :
    audio_callback (0 : Int) [7] 1 ≠ audio_callback_claimed (0 : Int) [7] 1 ∧
    audio_callback (0 : Int) [7] 1 = ([0], [7]) ∧
    audio_callback_claimed (0 : Int) [7] 1 = ([7], []) := by
  refine ⟨?_, by rfl, by rfl⟩
  decide

/-- C8 amended: the callback is a total function (it never waits); it always
produces exactly `n` output samples; when the queue holds strictly more than
`n` samples it removes exactly the first `n` and writes them in queue order
(nothing is lost or reordered); otherwise it writes the equilibrium value to
the entire block and leaves the queue untouched. -/
theorem C8_audio_callback_drain_or_silence {α : Type} (equilibrium : α)
    (queue : List α) (n : Nat) :
    (audio_callback equilibrium queue n).1.length = n ∧
    (n < queue.length →
      (audio_callback equilibrium queue n).1 = queue.take n ∧
      (audio_callback equilibrium queue n).2 = queue.drop n ∧
      (audio_callback equilibrium queue n).1 ++ (audio_callback equilibrium queue n).2 =
        queue) ∧
    (queue.length ≤ n →
      (audio_callback equilibrium queue n).1 = List.replicate n equilibrium ∧
      (audio_callback equilibrium queue n).2 = queue) := by
  by_cases h : n < queue.length
  · have he : audio_callback equilibrium queue n = (queue.take n, queue.drop n) := by
      simp [audio_callback, h]
    rw [he]
    refine ⟨?_, fun _ => ⟨rfl, rfl, List.take_append_drop n queue⟩,
      fun h2 => absurd h (by omega)⟩
    rw [List.length_take]
    omega
  · have he : audio_callback equilibrium queue n = (List.replicate n equilibrium, queue) := by
      simp [audio_callback, h]
    rw [he]
    exact ⟨by rw [List.length_replicate], fun h2 => absurd h2 h, fun _ => ⟨rfl, rfl⟩⟩

/-- Witness for C8's amended theorem at a queue with headroom. -/
theorem C8_audio_callback_drain_or_silence_witness :
    (audio_callback (0 : Int) [1, 2, 3] 2).1 = [1, 2] ∧
    (audio_callback (0 : Int) [1, 2, 3] 2).2 = [3] :=
  ⟨((C8_audio_callback_drain_or_silence (0 : Int) [1, 2, 3] 2).2.1 (by decide)).1,
   ((C8_audio_callback_drain_or_silence (0 : Int) [1, 2, 3] 2).2.1 (by decide)).2.1⟩

end Rustico
